import Mathlib

/-
  Verification of the Relocation OS currency / budget / entity-store core.

  Shallow embedding of:
    - src/currency_service.py  (get_exchange_rate, convert_amount, format_currency)
    - src/models.py            (Expense with its derived properties, RelocationPhase)
    - src/expense_operations.py (update_expense, get_budget_summary)
    - src/phase_operations.py  (create_phase, get_phase_by_id)

  Conventions:
    - Monetary amounts are ℤ (cents); exchange rates are ℤ scaled by 10,000.
    - Calendar days are ℤ (an abstract day index; only equality and order matter).
    - Python float arithmetic on rates/amounts is modelled exactly over ℚ.
    - Python `//` is floor division; for the positive divisors used here it agrees
      with Lean's `Int` division `/` (Euclidean), which is used throughout.
    - The process-wide cache (`_rate_cache`, `_cache_date`) is modelled as an
      explicit `CacheState` value threaded through calls; the external HTTP fetch
      is an oracle `fetch : String → String → Option ℚ` returning the float rate
      of a successful response, or `none` for any failure.
-/

/-- Python `int(q)`: truncation toward zero of a real (here rational) value. -/
def pyInt (q : ℚ) : Int := if q < 0 then ⌈q⌉ else ⌊q⌋

/-- The module-level mutable state of `currency_service.py`:
`_rate_cache` (a dict keyed by `"FROM_TO"` strings) and `_cache_date`.
The dict is modelled as an association list up to `cacheLookup`. -/
structure CacheState where
  rate_cache : List (String × Int)
  cache_date : Option Int
deriving DecidableEq

/-- Python dict membership / indexing on the rate cache. -/
def cacheLookup (k : String) : List (String × Int) → Option Int
  | [] => none
  | (k2, v) :: rest => if k = k2 then some v else cacheLookup k rest

/-- Python dict assignment `_rate_cache[key] = value` (insert or overwrite). -/
def cacheInsert (k : String) (v : Int) (c : List (String × Int)) : List (String × Int) :=
  (k, v) :: c.filter (fun p => ¬ p.1 = k)

/-- Result of one call to `get_exchange_rate`: the returned value (`none` models
Python `None`), the cache state after the call, and whether an external
(network) call was attempted. -/
structure RateResult where
  rate : Option Int
  state : CacheState
  madeExternalCall : Bool
deriving DecidableEq

/-- Embedding of `currency_service.get_exchange_rate(from_currency, to_currency)`.

Mirrors the source line by line: same-currency short-circuit returning 10000;
cache hit requires `_cache_date == today` and the key present; on a miss the
oracle is consulted, a successful float rate is converted with
`int(rate_float * 10000)` and stored under the pair key, and `_cache_date` is
set to `today` (the dict is NOT cleared); on failure the state is unchanged
and `None` is returned. -/
def get_exchange_rate (fetch : String → String → Option ℚ) (today : Int)
    (s : CacheState) (from_currency to_currency : String) : RateResult :=
  if from_currency = to_currency then
    ⟨some 10000, s, false⟩
  else
    let cache_key := from_currency ++ "_" ++ to_currency
    if s.cache_date = some today ∧ (cacheLookup cache_key s.rate_cache).isSome then
      ⟨cacheLookup cache_key s.rate_cache, s, false⟩
    else
      match fetch from_currency to_currency with
      | some rate_float =>
          let rate_cents := pyInt (rate_float * 10000)
          ⟨some rate_cents, ⟨cacheInsert cache_key rate_cents s.rate_cache, some today⟩, true⟩
      | none => ⟨none, s, true⟩

/-- Result of one call to `convert_amount`. -/
structure ConvertResult where
  amount : Int
  state : CacheState
  madeExternalCall : Bool
deriving DecidableEq

/-- Embedding of `currency_service.convert_amount(amount_cents, from_currency, to_currency)`:
obtains the rate via `get_exchange_rate`; if it is `None` returns the input
unchanged, otherwise `(amount_cents * rate) // 10000` (floor division; the
divisor 10000 is positive, so Lean's `Int` division agrees with Python `//`). -/
def convert_amount (fetch : String → String → Option ℚ) (today : Int)
    (s : CacheState) (amount_cents : Int) (from_currency to_currency : String) :
    ConvertResult :=
  let r := get_exchange_rate fetch today s from_currency to_currency
  match r.rate with
  | none => ⟨amount_cents, r.state, r.madeExternalCall⟩
  | some rate => ⟨(amount_cents * rate) / 10000, r.state, r.madeExternalCall⟩

/-- The fixed symbol table of `format_currency`. -/
def currencySymbols : List (String × String) :=
  [("USD", "$"), ("EUR", "€"), ("GBP", "£"), ("JPY", "¥"), ("CAD", "C$"), ("AUD", "A$")]

/-- Symbol lookup mirroring Python `symbols.get(code, code + ' ')`. -/
def symbolFor (currency_code : String) : String :=
  match currencySymbols.lookup currency_code with
  | some s => s
  | none => currency_code ++ " "

/-- Insert a `,` before every further group of three digits; the input is the
digit list least-significant first. -/
def commaGroupRev : List Char → Nat → List Char
  | [], _ => []
  | c :: cs, 3 => ',' :: c :: commaGroupRev cs 1
  | c :: cs, k => c :: commaGroupRev cs (k + 1)

/-- Decimal rendering of a natural number with thousands separators. -/
def natGrouped (n : Nat) : String :=
  String.mk ((commaGroupRev (toString n).toList.reverse 0).reverse)

/-- Two-digit zero-padded rendering of a value in `[0, 100)`. -/
def twoDigits (n : Nat) : String :=
  (if n < 10 then "0" else "") ++ toString n

/-- Python `f"{amount_cents / 100:,.2f}"`: two decimals, thousands separators.
The float division and formatting are modelled as exact decimal rendering of
the integer cent amount, which is what the format produces for all amounts
whose magnitude is far below 2^53. -/
def fmtThousands2dp (amount_cents : Int) : String :=
  let sign := if amount_cents < 0 then "-" else ""
  let n := amount_cents.natAbs
  sign ++ natGrouped (n / 100) ++ "." ++ twoDigits (n % 100)

/-- Embedding of `currency_service.format_currency(amount_cents, currency_code)`. -/
def format_currency (amount_cents : Int) (currency_code : String) : String :=
  symbolFor currency_code ++ fmtThousands2dp amount_cents

/-- The stored (column) state of `models.Expense`. Nullable columns are
`Option`; `due_date` is a day index. SQLAlchemy relationship attributes
(`phase`, `relocation_profile`, `related_task`) are object references outside
this scalar state and are not modelled. -/
structure Expense where
  id : Int
  title : String
  category : Option String
  estimated_amount : Int
  actual_amount : Option Int
  currency : String
  exchange_rate : Option Int
  cost_certainty : String
  payment_status : String
  include_in_budget : Bool
  one_time_relocation_cost : Bool
  due_date : Option Int
  notes : Option String
  phase_id : Int
  relocation_profile_id : Int
  related_task_id : Option Int
deriving DecidableEq

/-- Python truthiness of a nullable integer column: `None` and `0` are falsy. -/
def pyTruthyInt : Option Int → Bool
  | none => false
  | some v => v != 0

/-- Python `self.actual_amount if self.actual_amount else self.estimated_amount`
(used by `total_primary_currency` and the paid sum): the ACTUAL amount is used
only when it is present AND nonzero, by truthiness. -/
def pyActualOrEstimated (e : Expense) : Int :=
  if pyTruthyInt e.actual_amount then e.actual_amount.getD 0 else e.estimated_amount

/-- Embedding of `models.Expense.total_primary_currency` (a `@property`):
`amount * exchange_rate / 10000` when `self.exchange_rate` is truthy
(present and nonzero), else `amount / 100`; Python `/` is exact here (ℚ). -/
def Expense.total_primary_currency (e : Expense) : ℚ :=
  let amount := pyActualOrEstimated e
  if pyTruthyInt e.exchange_rate then
    ((amount * e.exchange_rate.getD 0 : ℤ) : ℚ) / 10000
  else
    ((amount : ℤ) : ℚ) / 100

/-- Embedding of `models.Expense.variance` (a `@property`): `None` when `actual_amount` is
`None`, else `(actual_amount - estimated_amount) / 100`. -/
def Expense.variance (e : Expense) : Option ℚ :=
  match e.actual_amount with
  | none => none
  | some a => some (((a - e.estimated_amount : ℤ) : ℚ) / 100)

/-- Embedding of `models.Expense.is_overdue` (a `@property`), with `date.today()` passed as
an explicit `today` argument: false when there is no due date or the expense is
paid, else `today > due_date`. -/
def Expense.is_overdue (e : Expense) (today : Int) : Bool :=
  match e.due_date with
  | none => false
  | some d => if e.payment_status = "paid" then false else decide (d < today)

/-- Python truthiness of the `variance` property value (`None` and `0.0` falsy). -/
def pyTruthyVariance : Option ℚ → Bool
  | none => false
  | some v => v != 0

/-- The dictionary returned by `expense_operations.get_budget_summary`. -/
structure BudgetSummary where
  total_estimated : ℚ
  total_actual : ℚ
  total_paid : ℚ
  remaining : ℚ
  budget_progress_pct : ℚ
  overdue_count : Nat
  unknown_count : Nat
  over_budget_count : Nat
  total_expenses : Nat
deriving DecidableEq

/-- Embedding of `expense_operations.get_budget_summary(relocation_profile_id)`, with the
profile's expense rows passed explicitly (the `get_all_expenses` query is the
storage layer; its sort order does not affect any field computed here). -/
def get_budget_summary (today : Int) (expenses : List Expense) : BudgetSummary :=
  let budget_expenses := expenses.filter (fun e => e.include_in_budget)
  let total_estimated : ℚ := (((budget_expenses.map (fun e => e.estimated_amount)).sum : ℤ) : ℚ) / 100
  let total_actual : ℚ :=
    ((((budget_expenses.filter (fun e => pyTruthyInt e.actual_amount)).map
        (fun e => e.actual_amount.getD 0)).sum : ℤ) : ℚ) / 100
  let total_paid : ℚ :=
    ((((budget_expenses.filter (fun e => e.payment_status = "paid")).map
        pyActualOrEstimated).sum : ℤ) : ℚ) / 100
  let remaining := total_estimated - total_paid
  let overdue_count := (budget_expenses.filter (fun e => e.is_overdue today)).length
  let unknown_count := (budget_expenses.filter (fun e => e.cost_certainty = "unknown")).length
  let over_budget_count :=
    (budget_expenses.filter
      (fun e => pyTruthyVariance e.variance && decide ((e.variance.getD 0) > 0))).length
  { total_estimated := total_estimated
    total_actual := total_actual
    total_paid := total_paid
    remaining := remaining
    budget_progress_pct := if total_estimated > 0 then total_paid / total_estimated * 100 else 0
    overdue_count := overdue_count
    unknown_count := unknown_count
    over_budget_count := over_budget_count
    total_expenses := budget_expenses.length }

/-- The stored state of `models.RelocationPhase`. -/
structure RelocationPhase where
  id : Int
  name : String
  relative_start_month : Int
  relative_end_month : Int
  order_index : Int
  description : Option String
  relocation_profile_id : Int
deriving DecidableEq

/-- Embedding of `phase_operations.get_phase_by_id(phase_id)` over the phase table. -/
def get_phase_by_id (db : List RelocationPhase) (phase_id : Int) : Option RelocationPhase :=
  db.find? (fun p => p.id == phase_id)

/-- Embedding of `phase_operations.create_phase(...)` over the phase table (the table is
passed and returned explicitly; autoincrement ids are modelled as
`length + 1`). Mirrors the source faithfully: the initial profile query's
result is discarded, NO validation of the month fields is performed, the row
is inserted and committed, and the freshly reloaded row is returned. -/
def create_phase (db : List RelocationPhase) (relocation_profile_id : Int) (name : String)
    (relative_start_month relative_end_month : Int) (order_index : Int)
    (description : Option String) : List RelocationPhase × Option RelocationPhase :=
  let phase : RelocationPhase :=
    { id := (db.length : Int) + 1
      name := name
      relative_start_month := relative_start_month
      relative_end_month := relative_end_month
      order_index := order_index
      description := description
      relocation_profile_id := relocation_profile_id }
  let db2 := db ++ [phase]
  (db2, get_phase_by_id db2 phase.id)

/-- A Python value passed in `update_expense(**kwargs)`, typed by the column it
is meant for. -/
inductive FieldVal where
  | int (i : Int)
  | optInt (o : Option Int)
  | str (s : String)
  | optStr (o : Option String)
  | bool (b : Bool)
deriving DecidableEq

/-- The mapped column names of `models.Expense` (settable attributes that are
part of the stored row). -/
def expenseColumns : List String :=
  ["id", "title", "category", "estimated_amount", "actual_amount", "currency",
   "exchange_rate", "cost_certainty", "payment_status", "include_in_budget",
   "one_time_relocation_cost", "due_date", "notes", "phase_id",
   "relocation_profile_id", "related_task_id"]

/-- The `@property` attributes of `models.Expense`: `hasattr` is true for
them, but they have no setter, so `setattr` raises `AttributeError`. -/
def expenseReadOnlyProps : List String :=
  ["total_primary_currency", "variance", "is_overdue"]

/-- The SQLAlchemy relationship attributes of `models.Expense`: `hasattr` is
true and assignment succeeds at the Python level, but they hold object
references outside the scalar state modelled here; every theorem below
excludes them from the updated keys. -/
def expenseRelationshipAttrs : List String :=
  ["phase", "relocation_profile", "related_task"]

/-- Embedding of `setattr(expense, k, v)` for a mapped column `k`. A value whose type does
not match the column leaves the row unchanged; all theorems are exercised only
with type-correct values, matching how the program builds its updates. -/
def setExpenseColumn (e : Expense) (k : String) (v : FieldVal) : Expense :=
  if k = "id" then match v with | .int i => { e with id := i } | _ => e
  else if k = "title" then match v with | .str s => { e with title := s } | _ => e
  else if k = "category" then match v with | .optStr o => { e with category := o } | _ => e
  else if k = "estimated_amount" then match v with | .int i => { e with estimated_amount := i } | _ => e
  else if k = "actual_amount" then match v with | .optInt o => { e with actual_amount := o } | _ => e
  else if k = "currency" then match v with | .str s => { e with currency := s } | _ => e
  else if k = "exchange_rate" then match v with | .optInt o => { e with exchange_rate := o } | _ => e
  else if k = "cost_certainty" then match v with | .str s => { e with cost_certainty := s } | _ => e
  else if k = "payment_status" then match v with | .str s => { e with payment_status := s } | _ => e
  else if k = "include_in_budget" then match v with | .bool b => { e with include_in_budget := b } | _ => e
  else if k = "one_time_relocation_cost" then match v with | .bool b => { e with one_time_relocation_cost := b } | _ => e
  else if k = "due_date" then match v with | .optInt o => { e with due_date := o } | _ => e
  else if k = "notes" then match v with | .optStr o => { e with notes := o } | _ => e
  else if k = "phase_id" then match v with | .int i => { e with phase_id := i } | _ => e
  else if k = "relocation_profile_id" then match v with | .int i => { e with relocation_profile_id := i } | _ => e
  else if k = "related_task_id" then match v with | .optInt o => { e with related_task_id := o } | _ => e
  else e

/-- The `for key, value in kwargs.items()` loop of
`expense_operations.update_expense`, applied in order to the in-session row:
`hasattr` false → print the "Unknown field" warning and continue;
`hasattr` true and the attribute is a read-only property → `setattr` raises
`AttributeError`, which aborts the loop (caught, rolled back and re-raised);
`hasattr` true for a mapped column → the column is set. The returned warnings
are those printed on the successful path. -/
def applyKwargs (e : Expense) : List (String × FieldVal) → Except String (Expense × List String)
  | [] => Except.ok (e, [])
  | (k, v) :: rest =>
    if k ∈ expenseRelationshipAttrs then
      Except.error ("unmodelled relationship attribute: " ++ k)
    else if k ∈ expenseReadOnlyProps then
      Except.error ("AttributeError: " ++ k)
    else if k ∈ expenseColumns then
      applyKwargs (setExpenseColumn e k v) rest
    else
      match applyKwargs e rest with
      | Except.ok (e2, ws) => Except.ok (e2, ("Unknown field: " ++ k) :: ws)
      | Except.error m => Except.error m

/-- Embedding of `expense_operations.update_expense(expense_id, **kwargs)` over the expense
table: row missing → message and `None`; loop raises → rollback (table
unchanged) and the exception propagates (`Except.error`); otherwise the
updated row is committed in place (one atomic commit) and reloaded. -/
def update_expense (db : List Expense) (expense_id : Int)
    (kwargs : List (String × FieldVal)) :
    List Expense × Except String (Option (Expense × List String)) :=
  match db.find? (fun e => e.id == expense_id) with
  | none => (db, Except.ok none)
  | some e =>
    match applyKwargs e kwargs with
    | Except.ok (e2, ws) =>
        (db.map (fun x => if x.id == expense_id then e2 else x), Except.ok (some (e2, ws)))
    | Except.error m => (db, Except.error m)

/- ------------------------------------------------------------------
   Definitions following the SPEC'S WORDS, for comparison with the
   definitions above that embed the source. Each is named `claim_*`
   (the claim exactly as stated) or `amended_*` (the claim with the
   minimal change the code forces).
   ------------------------------------------------------------------ -/

/-- The claim's totalPaid exactly as stated: sum, over budget-included
expenses with payment status "paid", of (actual amount IF PRESENT else
estimated amount), divided by 100. -/
def claim_total_paid (expenses : List Expense) : ℚ :=
  (((((expenses.filter (fun e => e.include_in_budget)).filter
        (fun e => e.payment_status = "paid")).map
      (fun e => match e.actual_amount with
        | some a => a
        | none => e.estimated_amount)).sum : ℤ) : ℚ) / 100

/-- totalPaid as the code actually computes it, stated in spec style: the
actual amount is used only when it is present AND nonzero. -/
def amended_total_paid (expenses : List Expense) : ℚ :=
  (((((expenses.filter (fun e => e.include_in_budget)).filter
        (fun e => e.payment_status = "paid")).map
      (fun e => match e.actual_amount with
        | some a => if a = 0 then e.estimated_amount else a
        | none => e.estimated_amount)).sum : ℤ) : ℚ) / 100

/-- The claim's overBudgetCount: count of budget-included expenses whose
variance is defined and positive. -/
def claim_over_budget_count (expenses : List Expense) : Nat :=
  ((expenses.filter (fun e => e.include_in_budget)).filter
    (fun e => match e.variance with
      | some v => decide (0 < v)
      | none => false)).length

/-- The claim's totalEstimated: sum of estimated amounts of budget-included
expenses, divided by 100. -/
def claim_total_estimated (expenses : List Expense) : ℚ :=
  ((((expenses.filter (fun e => e.include_in_budget)).map
      (fun e => e.estimated_amount)).sum : ℤ) : ℚ) / 100

/-- The claim's total_primary_currency exactly as stated: amount is the
actual amount IF PRESENT else the estimated amount; WHENEVER an exchange
rate is present the result is amount × rate / 10000, else amount / 100. -/
def claim_total_primary_currency (e : Expense) : ℚ :=
  let amount : ℤ := match e.actual_amount with
    | some a => a
    | none => e.estimated_amount
  match e.exchange_rate with
  | some r => ((amount * r : ℤ) : ℚ) / 10000
  | none => ((amount : ℤ) : ℚ) / 100

/-- total_primary_currency as the code actually computes it, stated in spec
style: "present" is replaced by "present and nonzero" for both the actual
amount and the exchange rate. -/
def amended_total_primary_currency (e : Expense) : ℚ :=
  let amount : ℤ := match e.actual_amount with
    | some a => if a = 0 then e.estimated_amount else a
    | none => e.estimated_amount
  match e.exchange_rate with
  | some r => if r = 0 then ((amount : ℤ) : ℚ) / 100 else ((amount * r : ℤ) : ℚ) / 10000
  | none => ((amount : ℤ) : ℚ) / 100

/-- The claim's budgetProgressPct exactly as stated, over the computed
summary: totalPaid / totalEstimated × 100 when totalEstimated is NONZERO,
and 0 when it is 0. -/
def claim_budget_progress_pct (s : BudgetSummary) : ℚ :=
  if s.total_estimated ≠ 0 then s.total_paid / s.total_estimated * 100 else 0

/-- The claim's generic update exactly as stated: every pair naming a stored
field is applied in order, every other pair is skipped with one "Unknown
field" warning, and the update never fails. -/
def claim_update_fields (e : Expense) (kwargs : List (String × FieldVal)) :
    Expense × List String :=
  (kwargs.foldl (fun acc p => if p.1 ∈ expenseColumns then setExpenseColumn acc p.1 p.2 else acc) e,
   (kwargs.filter (fun p => ¬ p.1 ∈ expenseColumns)).map (fun p => "Unknown field: " ++ p.1))

/- ------------------------------------------------------------------
   Concrete fixtures.
   ------------------------------------------------------------------ -/

/-- An expense row with the column defaults of `create_expense`. -/
def baseExpense : Expense :=
  { id := 1, title := "Expense", category := none, estimated_amount := 0,
    actual_amount := none, currency := "USD", exchange_rate := none,
    cost_certainty := "estimated", payment_status := "unpaid",
    include_in_budget := true, one_time_relocation_cost := true,
    due_date := none, notes := none, phase_id := 1,
    relocation_profile_id := 1, related_task_id := none }

/-- Spec example: estimated 10000 cents, unpaid, included in budget. -/
def exEstimatedUnpaid : Expense := { baseExpense with id := 1, estimated_amount := 10000 }

/-- Spec example: estimated 5000, actual 6000, paid, included in budget. -/
def exActualPaid : Expense :=
  { baseExpense with
      id := 2
      estimated_amount := 5000
      actual_amount := some 6000
      payment_status := "paid" }

/-- A paid, budget-included expense whose actual amount is PRESENT but zero
(estimated 5000): the truthiness test treats the actual amount as absent. -/
def exZeroActualPaid : Expense :=
  { baseExpense with
      estimated_amount := 5000
      actual_amount := some 0
      payment_status := "paid" }

/-- An expense whose exchange rate is PRESENT but zero (estimated 100). -/
def exZeroRate : Expense :=
  { baseExpense with estimated_amount := 100, exchange_rate := some 0 }

/-- A paid, budget-included expense with a negative estimated amount, making
the summary's totalEstimated negative (nonzero but not positive). -/
def exNegEstimatedPaid : Expense :=
  { baseExpense with estimated_amount := -100, payment_status := "paid" }

/-- Update target row for the generic-update claims. -/
def exUpdateTarget : Expense := { baseExpense with title := "Shipping container" }

/-- kwargs mixing a valid column pair with the read-only property name
`variance`: `hasattr` accepts `variance`, `setattr` raises. -/
def kwargsWithVariance : List (String × FieldVal) :=
  [("title", FieldVal.str "New title"), ("variance", FieldVal.int 0)]

/-- kwargs mixing a valid column pair with a genuinely unknown name. -/
def kwargsValidMix : List (String × FieldVal) :=
  [("title", FieldVal.str "Renamed"), ("bogus_field", FieldVal.int 1)]

/-- Fetch oracle: USD→EUR trades at 0.92, everything else fails. -/
def fetchUsdEur92 : String → String → Option ℚ :=
  fun f t => if f = "USD" ∧ t = "EUR" then some (92 / 100) else none

/-- Fetch oracle for the next calendar day: USD→EUR has moved to 0.95 and
GBP→USD trades at 1.27. -/
def fetchNextDay : String → String → Option ℚ :=
  fun f t =>
    if f = "USD" ∧ t = "EUR" then some (95 / 100)
    else if f = "GBP" ∧ t = "USD" then some (127 / 100)
    else none

/-- The phase row that `create_phase` builds from the inverted months 5..3. -/
def invalidPhase : RelocationPhase :=
  { id := 1, name := "Backwards phase", relative_start_month := 5,
    relative_end_month := 3, order_index := 1, description := none,
    relocation_profile_id := 1 }

/- ------------------------------------------------------------------
   Helper lemmas (shared).
   ------------------------------------------------------------------ -/

/-- The same-currency short-circuit of `get_exchange_rate`. -/
lemma get_exchange_rate_self (fetch : String → String → Option ℚ) (today : Int)
    (s : CacheState) (c : String) :
    get_exchange_rate fetch today s c c = ⟨some 10000, s, false⟩ := by
  simp [get_exchange_rate]

/- ------------------------------------------------------------------
   Claim theorems.
   ------------------------------------------------------------------ -/

/-- Claim C9: for every pair of currency codes where the source equals the
target, `get_exchange_rate` returns exactly 10000 (the fixed 1.0 rate),
leaves the cache untouched, and performs no external call. -/
theorem get_exchange_rate_same_currency (fetch : String → String → Option ℚ)
    (today : Int) (s : CacheState) (c : String) :
    get_exchange_rate fetch today s c c = ⟨some 10000, s, false⟩ :=
  get_exchange_rate_self fetch today s c

/-- Claim C9 witness (instantiation at a concrete same-currency call). -/
theorem get_exchange_rate_same_currency_witness :
    get_exchange_rate (fun _ _ => none) 0 ⟨[], none⟩ "USD" "USD" = ⟨some 10000, ⟨[], none⟩, false⟩ :=
  get_exchange_rate_same_currency (fun _ _ => none) 0 ⟨[], none⟩ "USD"

/-- Claim C10: for every integer amount (including zero and negative values)
and every currency code, `convert_amount` with equal source and target returns
the amount unchanged and performs no external call: the fixed rate 10000 makes
`(a * 10000) // 10000 = a` exactly. -/
theorem convert_amount_same_currency_identity (fetch : String → String → Option ℚ)
    (today : Int) (s : CacheState) (a : Int) (c : String) :
    convert_amount fetch today s a c c = ⟨a, s, false⟩ := by
  simp only [convert_amount, get_exchange_rate_self]
  exact congrArg (fun x => ConvertResult.mk x s false) (Int.mul_ediv_cancel a (by norm_num))

/-- Claim C2: `create_phase` performs no validation of the month window: a
phase with `relative_start_month = 5` and `relative_end_month = 3` (start ≥
end) is persisted into the table and returned, rather than rejected before
persistence. -/
theorem create_phase_persists_inverted_months :
    create_phase [] 1 "Backwards phase" 5 3 1 none = ([invalidPhase], some invalidPhase) ∧
    invalidPhase.relative_start_month ≥ invalidPhase.relative_end_month := by
  constructor
  · rfl
  · decide

/-- Claim C5: `convert_amount` returns the input unchanged when the rate is
unavailable (fail open, not an error) and otherwise returns
`floor(amount_cents × rate / 10000)` (the integer division used is exactly the
rational floor); in particular converting 10000 cents USD→EUR with the oracle
rate 0.92 (stored as 9200) returns 9200. -/
theorem convert_amount_fail_open_and_floor :
    (∀ (fetch : String → String → Option ℚ) (today : Int) (s : CacheState)
        (amount_cents : Int) (f t : String),
      (convert_amount fetch today s amount_cents f t).amount =
        match (get_exchange_rate fetch today s f t).rate with
        | none => amount_cents
        | some r => (amount_cents * r) / 10000) ∧
    (∀ a r : Int, (a * r) / 10000 = ⌊((a * r : ℤ) : ℚ) / 10000⌋) ∧
    (get_exchange_rate fetchUsdEur92 0 ⟨[], none⟩ "USD" "EUR").rate = some 9200 ∧
    (convert_amount fetchUsdEur92 0 ⟨[], none⟩ 10000 "USD" "EUR").amount = 9200 := by
  refine ⟨?_, ?_, ?_, ?_⟩
  · intro fetch today s amount_cents f t
    rcases h : (get_exchange_rate fetch today s f t).rate with _ | r <;>
      simp [convert_amount, h]
  · intro a r
    have h := Rat.floor_intCast_div_natCast (a * r) 10000
    norm_num at h
    push_cast
    exact h.symm
  · simp [get_exchange_rate, fetchUsdEur92, pyInt]
    norm_num
  · simp [convert_amount, get_exchange_rate, fetchUsdEur92, pyInt]
    norm_num

/-- Claim C1 is violated by the code: the cache dict is never cleared when the
date changes, and `_cache_date` is a single global stamp, so one successful
fetch of any pair on a new day re-validates every entry left over from earlier
days. Trace: on day 1, USD→EUR is fetched (0.92, stored as 9200). On day 2 the
oracle quotes USD→EUR at 0.95 (9500); a GBP→USD fetch stamps the cache with
day 2, after which a USD→EUR request is served from the cache — no external
call — returning the day-1 value 9200, not a value fetched and stamped on the
current calendar day. -/
theorem currency_cache_serves_stale_rate_after_date_change :
    get_exchange_rate fetchUsdEur92 1 ⟨[], none⟩ "USD" "EUR" =
      ⟨some 9200, ⟨[("USD_EUR", 9200)], some 1⟩, true⟩ ∧
    get_exchange_rate fetchNextDay 2 ⟨[("USD_EUR", 9200)], some 1⟩ "GBP" "USD" =
      ⟨some 12700, ⟨[("GBP_USD", 12700), ("USD_EUR", 9200)], some 2⟩, true⟩ ∧
    get_exchange_rate fetchNextDay 2 ⟨[("GBP_USD", 12700), ("USD_EUR", 9200)], some 2⟩ "USD" "EUR" =
      ⟨some 9200, ⟨[("GBP_USD", 12700), ("USD_EUR", 9200)], some 2⟩, false⟩ ∧
    pyInt ((95 / 100 : ℚ) * 10000) = 9500 ∧ (9200 : Int) ≠ 9500 := by
  refine ⟨?_, ?_, ?_, ?_, by decide⟩
  · simp [get_exchange_rate, fetchUsdEur92, cacheInsert, pyInt]
    norm_num
  · simp [get_exchange_rate, fetchNextDay, cacheLookup, cacheInsert, pyInt]
    norm_num
  · simp [get_exchange_rate, cacheLookup]
  · simp [pyInt]
    norm_num

/-- Claim C4 counterexample: for the expense with estimated amount 100, no
actual amount, and exchange rate PRESENT but equal to 0, the claim's formula
gives (100 × 0) / 10000 = 0, while the code's truthiness test (`if
self.exchange_rate:`) treats the rate as absent and returns 100 / 100 = 1. -/
theorem total_primary_currency_claim_counterexample :
    Expense.total_primary_currency exZeroRate = 1 ∧
    claim_total_primary_currency exZeroRate = 0 ∧
    Expense.total_primary_currency exZeroRate ≠ claim_total_primary_currency exZeroRate := by
  refine ⟨?_, ?_, ?_⟩ <;>
    norm_num [Expense.total_primary_currency, claim_total_primary_currency,
      pyActualOrEstimated, pyTruthyInt, exZeroRate, baseExpense]

/-- Claim C4 amended: `total_primary_currency` equals (actual amount if
present AND NONZERO, else estimated amount) × exchange rate / 10000 whenever
an exchange rate is present AND NONZERO, and equals that amount / 100
otherwise (no exchange rate, or exchange rate 0). -/
theorem total_primary_currency_amended (e : Expense) :
    Expense.total_primary_currency e = amended_total_primary_currency e := by
  rcases ha : e.actual_amount with _ | a <;> rcases hr : e.exchange_rate with _ | r <;>
    simp only [Expense.total_primary_currency, amended_total_primary_currency,
      pyActualOrEstimated, pyTruthyInt, ha, hr] <;>
    first
      | rfl
      | (by_cases h0 : a = 0 <;> by_cases hr0 : r = 0 <;> simp [h0, hr0])
      | (by_cases h0 : a = 0 <;> simp [h0])
      | (by_cases hr0 : r = 0 <;> simp [hr0])

/-- Claim C4 amended witness: the amended theorem applied at the example
expense with estimated 5000, actual 6000, no exchange rate. -/
theorem total_primary_currency_amended_witness :
    Expense.total_primary_currency exActualPaid = amended_total_primary_currency exActualPaid :=
  total_primary_currency_amended exActualPaid

/-- Claim C7 counterexample: a profile with one budget-included, paid expense
of estimated amount -100 cents has totalEstimated = -1 (NONZERO) and
totalPaid = -1; the claim's formula gives -1 / -1 × 100 = 100, but the code's
guard is `total_estimated > 0`, not "nonzero", so it returns 0. -/
theorem budget_progress_pct_claim_counterexample :
    (get_budget_summary 0 [exNegEstimatedPaid]).total_estimated = -1 ∧
    (get_budget_summary 0 [exNegEstimatedPaid]).budget_progress_pct = 0 ∧
    claim_budget_progress_pct (get_budget_summary 0 [exNegEstimatedPaid]) = 100 ∧
    (get_budget_summary 0 [exNegEstimatedPaid]).budget_progress_pct ≠
      claim_budget_progress_pct (get_budget_summary 0 [exNegEstimatedPaid]) := by
  refine ⟨?_, ?_, ?_, ?_⟩ <;>
    norm_num [get_budget_summary, claim_budget_progress_pct, pyActualOrEstimated,
      pyTruthyInt, pyTruthyVariance, Expense.variance, Expense.is_overdue,
      exNegEstimatedPaid, baseExpense, List.filter, List.map, List.sum]

/-- Claim C7 amended: budgetProgressPct equals totalPaid / totalEstimated ×
100 when totalEstimated is POSITIVE and 0 otherwise (in particular when
totalEstimated is 0, so no division by zero is attempted); aggregation over an
empty expense set yields totalEstimated = 0, budgetProgressPct = 0 and
totalExpenses = 0. -/
theorem budget_progress_pct_amended :
    (∀ (today : Int) (expenses : List Expense),
      (get_budget_summary today expenses).budget_progress_pct =
        if claim_total_estimated expenses > 0 then
          (get_budget_summary today expenses).total_paid / claim_total_estimated expenses * 100
        else 0) ∧
    (∀ today : Int,
      (get_budget_summary today []).total_estimated = 0 ∧
      (get_budget_summary today []).budget_progress_pct = 0 ∧
      (get_budget_summary today []).total_expenses = 0) := by
  constructor
  · intro today expenses
    simp [get_budget_summary, claim_total_estimated]
  · intro today
    refine ⟨?_, ?_, ?_⟩ <;> simp [get_budget_summary, List.filter]

/-- Pointwise form of the Python truthiness choice between actual and
estimated amount. -/
lemma pyActualOrEstimated_eq (e : Expense) :
    pyActualOrEstimated e =
      match e.actual_amount with
      | some a => if a = 0 then e.estimated_amount else a
      | none => e.estimated_amount := by
  rcases h : e.actual_amount with _ | a <;>
    simp only [pyActualOrEstimated, pyTruthyInt, h]
  · rfl
  · by_cases h0 : a = 0 <;> simp [h0]

/-- Pointwise form of the over-budget test `if e.variance and e.variance > 0`. -/
lemma over_budget_pred_eq (e : Expense) :
    (pyTruthyVariance e.variance && decide ((e.variance.getD 0) > 0)) =
      match e.variance with
      | some v => decide (0 < v)
      | none => false := by
  rcases h : e.variance with _ | v <;> simp only [pyTruthyVariance, h, Option.getD]
  · rfl
  · by_cases h0 : v = 0 <;> simp [h0]

/-- Claim C3 counterexample: a budget-included, PAID expense with estimated
5000 and actual amount PRESENT but equal to 0. The claim's totalPaid
(actual-if-present) is 0 / 100 = 0; the code's truthiness test falls back to
the estimated amount, giving 5000 / 100 = 50. -/
theorem budget_total_paid_claim_counterexample :
    (get_budget_summary 0 [exZeroActualPaid]).total_paid = 50 ∧
    claim_total_paid [exZeroActualPaid] = 0 ∧
    (get_budget_summary 0 [exZeroActualPaid]).total_paid ≠ claim_total_paid [exZeroActualPaid] := by
  refine ⟨?_, ?_, ?_⟩ <;>
    norm_num [get_budget_summary, claim_total_paid, pyActualOrEstimated,
      pyTruthyInt, exZeroActualPaid, baseExpense, List.filter, List.map, List.sum]

/-- Claim C3 amended: totalPaid is the sum, over budget-included expenses with
payment status "paid", of (actual amount if present AND NONZERO, else
estimated amount) / 100; overBudgetCount counts the included expenses whose
variance is defined and positive; on the spec's example pair
{estimated 10000, unpaid} and {estimated 5000, actual 6000, paid} the summary
is totalEstimated 150, totalPaid 60, remaining 90, overBudgetCount 1. -/
theorem budget_summary_total_paid_amended :
    (∀ (today : Int) (expenses : List Expense),
      (get_budget_summary today expenses).total_paid = amended_total_paid expenses ∧
      (get_budget_summary today expenses).over_budget_count = claim_over_budget_count expenses) ∧
    ((get_budget_summary 0 [exEstimatedUnpaid, exActualPaid]).total_estimated = 150 ∧
     (get_budget_summary 0 [exEstimatedUnpaid, exActualPaid]).total_paid = 60 ∧
     (get_budget_summary 0 [exEstimatedUnpaid, exActualPaid]).remaining = 90 ∧
     (get_budget_summary 0 [exEstimatedUnpaid, exActualPaid]).over_budget_count = 1) := by
  constructor
  · intro today expenses
    constructor
    · simp only [get_budget_summary, amended_total_paid]
      congr 2
      congr 1
      apply List.map_congr_left
      intro e _
      exact pyActualOrEstimated_eq e
    · simp only [get_budget_summary, claim_over_budget_count]
      congr 1
      apply List.filter_congr
      intro e _
      exact over_budget_pred_eq e
  · have h10 : (((10 : ℚ) != 0) = true) := by
      norm_num [bne_iff_ne]
    refine ⟨?_, ?_, ?_, ?_⟩ <;>
      norm_num [get_budget_summary, pyActualOrEstimated, pyTruthyInt,
        pyTruthyVariance, Expense.variance, Expense.is_overdue, h10,
        exEstimatedUnpaid, exActualPaid, baseExpense, List.filter, List.map, List.sum]

/-- Claim C8: `format_currency` renders the cent amount as a two-decimal,
thousands-separated number prefixed by the fixed table's symbol for USD, EUR,
GBP, JPY, CAD and AUD, and by the code followed by a space for every other
currency code; in particular 123456 cents USD renders as "$1,234.56" and 500
cents of the unknown code XXX as "XXX 5.00". -/
theorem format_currency_spec :
    format_currency 123456 "USD" = "$1,234.56" ∧
    format_currency 500 "XXX" = "XXX 5.00" ∧
    (∀ a : Int, format_currency a "USD" = "$" ++ fmtThousands2dp a) ∧
    (∀ a : Int, format_currency a "EUR" = "€" ++ fmtThousands2dp a) ∧
    (∀ a : Int, format_currency a "GBP" = "£" ++ fmtThousands2dp a) ∧
    (∀ a : Int, format_currency a "JPY" = "¥" ++ fmtThousands2dp a) ∧
    (∀ a : Int, format_currency a "CAD" = "C$" ++ fmtThousands2dp a) ∧
    (∀ a : Int, format_currency a "AUD" = "A$" ++ fmtThousands2dp a) ∧
    (∀ (a : Int) (code : String), code ∉ ["USD", "EUR", "GBP", "JPY", "CAD", "AUD"] →
      format_currency a code = code ++ " " ++ fmtThousands2dp a) := by
  refine ⟨by decide, by decide, ?_, ?_, ?_, ?_, ?_, ?_, ?_⟩
  · intro a; rfl
  · intro a; rfl
  · intro a; rfl
  · intro a; rfl
  · intro a; rfl
  · intro a; rfl
  · intro a code h
    simp only [List.mem_cons, List.not_mem_nil, or_false, not_or] at h
    obtain ⟨h1, h2, h3, h4, h5, h6⟩ := h
    simp [format_currency, symbolFor, currencySymbols, List.lookup,
      beq_eq_false_iff_ne.mpr h1, beq_eq_false_iff_ne.mpr h2, beq_eq_false_iff_ne.mpr h3,
      beq_eq_false_iff_ne.mpr h4, beq_eq_false_iff_ne.mpr h5, beq_eq_false_iff_ne.mpr h6]

/-- Claim C8 witness: the unknown-code conjunct instantiated at the concrete
code "XXX" and amount 500, with its hypothesis discharged by evaluation. -/
theorem format_currency_spec_witness :
    ("XXX" : String) ∉ ["USD", "EUR", "GBP", "JPY", "CAD", "AUD"] ∧
    format_currency 500 "XXX" = "XXX" ++ " " ++ fmtThousands2dp 500 :=
  ⟨by decide, format_currency_spec.2.2.2.2.2.2.2.2 500 "XXX" (by decide)⟩

/-- Claim C6 counterexample: updating an expense with the pairs
{title: "New title", variance: 0} — `variance` is not a stored field, so under
the claim it should be skipped with a warning and the title persisted — makes
the whole update fail: `hasattr` is true for the read-only property
`variance`, `setattr` raises `AttributeError`, the transaction is rolled back
(the table is unchanged, the valid title pair is NOT persisted) and the
exception propagates. -/
theorem update_expense_readonly_property_counterexample :
    update_expense [exUpdateTarget] 1 kwargsWithVariance =
      ([exUpdateTarget], Except.error ("AttributeError: " ++ "variance")) ∧
    (claim_update_fields exUpdateTarget kwargsWithVariance).1 =
      { exUpdateTarget with title := "New title" } ∧
    (update_expense [exUpdateTarget] 1 kwargsWithVariance).2 ≠
      Except.ok (some (claim_update_fields exUpdateTarget kwargsWithVariance)) := by
  refine ⟨by rfl, by decide, ?_⟩
  intro hcontra
  have h2 : (update_expense [exUpdateTarget] 1 kwargsWithVariance).2 =
      Except.error ("AttributeError: " ++ "variance") := by rfl
  rw [h2] at hcontra
  exact Except.noConfusion hcontra

/-- Characterization of the `update_expense` kwargs loop, provided no
relationship attribute is named: the first pair naming a read-only property
aborts with `AttributeError`; otherwise every column pair is applied in order
and every remaining (unknown) name yields exactly one warning. -/
lemma applyKwargs_eq (e : Expense) (kwargs : List (String × FieldVal))
    (h : ∀ p ∈ kwargs, p.1 ∉ expenseRelationshipAttrs) :
    applyKwargs e kwargs =
      match kwargs.find? (fun p => decide (p.1 ∈ expenseReadOnlyProps)) with
      | some p => Except.error ("AttributeError: " ++ p.1)
      | none => Except.ok (claim_update_fields e kwargs) := by
  induction kwargs generalizing e with
  | nil => simp [applyKwargs, claim_update_fields, List.find?]
  | cons p rest ih =>
    obtain ⟨k, v⟩ := p
    have hk : k ∉ expenseRelationshipAttrs := h (k, v) (List.mem_cons_self _ _)
    have hrest : ∀ q ∈ rest, q.1 ∉ expenseRelationshipAttrs :=
      fun q hq => h q (List.mem_cons_of_mem _ hq)
    by_cases hro : k ∈ expenseReadOnlyProps
    · simp [applyKwargs, hk, hro, List.find?]
    · by_cases hcol : k ∈ expenseColumns
      · simp only [applyKwargs, if_neg hk, if_neg hro, if_pos hcol, ih _ hrest,
          List.find?, decide_eq_true_eq, hro, decide_False]
        rcases hfind : rest.find? (fun p => decide (p.1 ∈ expenseReadOnlyProps)) with _ | q <;>
          simp [hfind, claim_update_fields, hcol]
      · simp only [applyKwargs, if_neg hk, if_neg hro, if_neg hcol, ih _ hrest,
          List.find?, decide_eq_true_eq, hro, decide_False]
        rcases hfind : rest.find? (fun p => decide (p.1 ∈ expenseReadOnlyProps)) with _ | q <;>
          simp [hfind, claim_update_fields, hcol]

/-- Claim C6 amended: for a generic update whose field names avoid the
(unmodelled) relationship attributes, each pair whose name is not an attribute
of `Expense` at all is skipped with one "Unknown field" warning and never
fails the update; each pair naming a stored column is applied in order and the
row is committed once (atomically); but a pair naming one of the read-only
derived properties (`variance`, `is_overdue`, `total_primary_currency`)
passes the `hasattr` check, raises on assignment, and aborts the whole update
with a rollback: the table is left unchanged and no pair — valid or not — is
persisted. -/
theorem update_expense_field_application_amended (db : List Expense) (expense_id : Int)
    (kwargs : List (String × FieldVal))
    (h : ∀ p ∈ kwargs, p.1 ∉ expenseRelationshipAttrs) :
    update_expense db expense_id kwargs =
      match db.find? (fun e => e.id == expense_id) with
      | none => (db, Except.ok none)
      | some e =>
        match kwargs.find? (fun p => decide (p.1 ∈ expenseReadOnlyProps)) with
        | some p => (db, Except.error ("AttributeError: " ++ p.1))
        | none =>
            (db.map (fun x => if x.id == expense_id then (claim_update_fields e kwargs).1 else x),
             Except.ok (some (claim_update_fields e kwargs))) := by
  unfold update_expense
  rcases hf : db.find? (fun e => e.id == expense_id) with _ | e
  · rw [hf]
  · rw [hf]
    dsimp only
    rw [applyKwargs_eq e kwargs h]
    rcases hro : kwargs.find? (fun p => decide (p.1 ∈ expenseReadOnlyProps)) with _ | p <;>
      rw [hro]

/-- Claim C6 amended witness: the amended theorem applied to a one-row table
and the kwargs {title: "Renamed", bogus_field: 1}: the unknown name is skipped
with exactly one warning, the title is persisted, and the update succeeds. -/
theorem update_expense_field_application_amended_witness :
    (∀ p ∈ kwargsValidMix, p.1 ∉ expenseRelationshipAttrs) ∧
    update_expense [exUpdateTarget] 1 kwargsValidMix =
      ([{ exUpdateTarget with title := "Renamed" }],
       Except.ok (some ({ exUpdateTarget with title := "Renamed" },
                        ["Unknown field: " ++ "bogus_field"]))) := by
  refine ⟨by decide, ?_⟩
  rw [update_expense_field_application_amended [exUpdateTarget] 1 kwargsValidMix (by decide)]
  rfl
